import Mathlib

/-!
Verification of `stream_3dprinter_camera.py`: a shallow embedding of the
frame bus (`StreamingOutput`), the HTTP multipart streaming handler
(`StreamingHandler.do_GET`), the motion-detection loop (`detect_motion`)
and the startup rotation configuration, together with theorems about the
spec's claims.

Conventions: raw bytes are `List Nat` with values below 256; numpy uint8
arithmetic is modelled by explicit `% 256`; the float mean is modelled as
exact division in `ℚ`; side effects of the detector loop are recorded as
an event trace.
-/

/- ### Motion metric (`detect_motion`, lines 248-252)

`mse = numpy.square(numpy.subtract(cur, prev)).mean()` where `cur` and
`prev` are uint8 arrays of the same shape: both the subtraction and the
squaring wrap modulo 256, and the mean is a float division by the pixel
count. -/

/-- uint8 squared difference of one pixel pair: `(cur - prev)` wrapping
modulo 256, then squared, again wrapping modulo 256 (numpy uint8
semantics of `numpy.square(numpy.subtract(cur, prev))`). -/
def pixDiffSq (c p : ℕ) : ℕ :=
  ((c + 256 - p) % 256) ^ 2 % 256

/-- The motion metric of `detect_motion`: mean over all pixels of the
uint8 squared difference, as an exact rational. -/
def metric (cur prev : List ℕ) : ℚ :=
  (((List.zipWith pixDiffSq cur prev).sum : ℕ) : ℚ) / ((cur.length : ℕ) : ℚ)

lemma pixDiffSq_self (c : ℕ) : pixDiffSq c c = 0 := by
  simp [pixDiffSq]

lemma pixDiffSq_offset (p d : ℕ) (hp : p < 256) (hd : d < 256) :
    pixDiffSq ((p + d) % 256) p = d ^ 2 % 256 := by
  have h : ((p + d) % 256 + 256 - p) % 256 = d := by omega
  rw [pixDiffSq, h]

lemma zipWith_pixDiffSq_self (l : List ℕ) :
    List.zipWith pixDiffSq l l = List.replicate l.length 0 := by
  induction l with
  | nil => rfl
  | cons a t ih => simp [List.zipWith, pixDiffSq_self, ih, List.replicate]

lemma zipWith_pixDiffSq_offset (d : ℕ) (hd : d < 256) (l : List ℕ)
    (hl : ∀ p ∈ l, p < 256) :
    List.zipWith pixDiffSq (l.map (fun p => (p + d) % 256)) l
      = List.replicate l.length (d ^ 2 % 256) := by
  induction l with
  | nil => rfl
  | cons a t ih =>
      have ha : a < 256 := hl a (List.mem_cons_self a t)
      have ht : ∀ p ∈ t, p < 256 := fun p hp => hl p (List.mem_cons_of_mem a hp)
      simp [List.zipWith, pixDiffSq_offset a d ha hd, ih ht, List.replicate]

/-- C1: the motion difference metric of `detect_motion` is 0 on two
buffers of identical content, and equals `d²` computed in the pixel value
type (uint8, i.e. `d² % 256`) when every pixel of the current buffer is
the previous pixel plus a constant offset `d` with wrap-around. -/
theorem detect_motion_metric_spec (b prev cur : List ℕ) (d : ℕ)
    (hb : 0 < b.length) (hn : 0 < prev.length) (hd : d < 256)
    (hpix : ∀ p ∈ prev, p < 256)
    (hcur : cur = prev.map (fun p => (p + d) % 256)) :
    metric b b = 0 ∧ metric cur prev = ((d ^ 2 % 256 : ℕ) : ℚ) := by
  constructor
  · rw [metric, zipWith_pixDiffSq_self]
    simp
  · rw [metric, hcur, zipWith_pixDiffSq_offset d hd prev hpix]
    simp only [List.length_map, List.sum_replicate, smul_eq_mul]
    have hne : ((prev.length : ℕ) : ℚ) ≠ 0 := Nat.cast_ne_zero.mpr hn.ne'
    push_cast
    field_simp

/-- Witness for `detect_motion_metric_spec` at concrete buffers:
`prev = [10, 250]`, offset `d = 20` (the second pixel wraps), giving
metric `20² % 256 = 144`. -/
theorem detect_motion_metric_spec_witness :
    metric [5, 6] [5, 6] = 0 ∧ metric [30, 14] [10, 250] = ((144 : ℕ) : ℚ) := by
  have h := detect_motion_metric_spec [5, 6] [10, 250] [30, 14] 20
    (by decide) (by decide) (by decide)
    (by decide) (by decide)
  simpa using h

/- ### Motion-detection loop (`detect_motion`, lines 224-292)

The loop's side effects (buffer capture, comparison, snapshot save,
curl PUT notification, `time.sleep` at the two call sites) are recorded
as an event trace; its mutable locals `prev` and `nloop` form the
detector state. Each loop iteration consumes one captured buffer and the
timestamp string the iteration would format. -/

/-- Configuration globals read by `detect_motion`:
`PRINTER_TOKEN`, `MOTION_THRESHOLD`, `WAIT_AFTER_MOTION`,
`WAIT_AFTER_N_LOOPS`, `MOTION_N_LOOPS`, `SNAPSHOT_DIR`. -/
structure Config where
  token : String
  motionThreshold : ℚ
  waitAfterMotion : ℕ
  waitAfterNLoops : ℕ
  motionNLoops : ℤ
  snapshotDir : String
deriving DecidableEq

/-- The mutable locals of the `detect_motion` loop: the previous luma
buffer (`prev`, `None` initially and right after a trigger) and the loop
counter (`nloop`). -/
structure DState where
  prev : Option (List ℕ)
  nloop : ℕ
deriving DecidableEq

/-- One observable side effect of a `detect_motion` iteration.
`sleepCooldown` is the `time.sleep(WAIT_AFTER_MOTION)` call site after a
trigger; `sleepThrottle` is the `time.sleep(WAIT_AFTER_N_LOOPS)` call
site of the duty-cycle throttle. -/
inductive Event where
  | captureBuffer
  | compare (mse : ℚ)
  | captureStill
  | saveSnapshot (path : String)
  | notify (path : String)
  | sleepCooldown (secs : ℕ)
  | sleepThrottle (secs : ℕ)
  | log (msg : String)
deriving DecidableEq

/-- Is the event a buffer comparison? -/
def Event.isCompare : Event → Bool
  | .compare _ => true
  | _ => false

/-- Is the event a snapshot file write? -/
def Event.isSave : Event → Bool
  | .saveSnapshot _ => true
  | _ => false

/-- Is the event a notifier invocation (the curl PUT)? -/
def Event.isNotify : Event → Bool
  | .notify _ => true
  | _ => false

/-- Is the event the duty-cycle throttle sleep? -/
def Event.isThrottle : Event → Bool
  | .sleepThrottle _ => true
  | _ => false

/-- Is the event a buffer capture? -/
def Event.isCaptureBuffer : Event → Bool
  | .captureBuffer => true
  | _ => false

/-- The snapshot path format string
`f"\x7bSNAPSHOT_DIR\x7d/motion_\x7btimestamp\x7d.jpg"`. -/
def snapPath (cfg : Config) (ts : String) : String :=
  cfg.snapshotDir ++ "/motion_" ++ ts ++ ".jpg"

/-- One iteration of the `while True` body of `detect_motion` (lines
241-291): capture a buffer, compare against `prev` when present, on
threshold breach save `<SNAPSHOT_DIR>/motion_<timestamp>.jpg`, notify,
sleep the cooldown and reset `cur`/`nloop`; then `prev = cur` and the
loop-counter throttle. -/
def loopBody (cfg : Config) (st : DState) (buf : List ℕ) (ts : String) :
    List Event × DState :=
  let (evCmp, cur1, nloop1) :=
    match st.prev with
    | none => ([], some buf, st.nloop)
    | some p =>
        let mse := metric buf p
        if mse > cfg.motionThreshold then
          ([Event.compare mse, Event.captureStill,
            Event.saveSnapshot (snapPath cfg ts),
            Event.notify (snapPath cfg ts),
            Event.sleepCooldown cfg.waitAfterMotion],
           none, 0)
        else
          ([Event.compare mse], some buf, st.nloop)
  let (evThrottle, nloop2) :=
    if cfg.motionNLoops > 0 then
      let n := (nloop1 + 1) % cfg.motionNLoops.toNat
      if n = 0 then ([Event.sleepThrottle cfg.waitAfterNLoops], n) else ([], n)
    else ([], nloop1)
  (Event.captureBuffer :: evCmp ++ evThrottle, ⟨cur1, nloop2⟩)

/-- Run the `detect_motion` loop over a finite prefix of captured
buffers (each with the timestamp string its iteration would format). -/
def runLoop (cfg : Config) (st : DState) :
    List (List ℕ × String) → List Event × DState
  | [] => ([], st)
  | (b, ts) :: rest =>
      let (ev, st1) := loopBody cfg st b ts
      let (evs, st2) := runLoop cfg st1 rest
      (ev ++ evs, st2)

/-- The abstention message printed when `PRINTER_TOKEN` is empty. -/
def tokenErrMsg : String :=
  "ERROR: Unable to detect motion because the PRINTER_TOKEN is not set."

/-- The function `detect_motion` itself: if the token is empty (`if not PRINTER_TOKEN`)
it logs and returns before the loop; otherwise it runs the loop from
`prev = None`, `nloop = 0`. -/
def detectMotion (cfg : Config) (inputs : List (List ℕ × String)) :
    List Event :=
  if cfg.token = "" then [Event.log tokenErrMsg]
  else (runLoop cfg ⟨none, 0⟩ inputs).1

/-- The events the bottom of an iteration appends and the counter value
it leaves, as functions of the incoming counter: the duty-cycle throttle
(lines 284-291). -/
def throttleTail (cfg : Config) (n : ℕ) : List Event :=
  if 0 < cfg.motionNLoops then
    (if (n + 1) % cfg.motionNLoops.toNat = 0
     then [Event.sleepThrottle cfg.waitAfterNLoops] else [])
  else []

/-- The counter value after the duty-cycle bottom of an iteration. -/
def throttleNext (cfg : Config) (n : ℕ) : ℕ :=
  if 0 < cfg.motionNLoops then (n + 1) % cfg.motionNLoops.toNat else n

lemma loopBody_prev_none (cfg : Config) (st : DState) (buf : List ℕ)
    (ts : String) (h : st.prev = none) :
    loopBody cfg st buf ts =
      (Event.captureBuffer :: throttleTail cfg st.nloop,
       ⟨some buf, throttleNext cfg st.nloop⟩) := by
  simp only [loopBody, h, throttleTail, throttleNext]
  split
  · split <;> simp
  · simp

lemma loopBody_trigger_eq (cfg : Config) (st : DState) (buf p : List ℕ)
    (ts : String) (hprev : st.prev = some p)
    (htrig : metric buf p > cfg.motionThreshold) :
    loopBody cfg st buf ts =
      (Event.captureBuffer :: Event.compare (metric buf p) ::
        Event.captureStill :: Event.saveSnapshot (snapPath cfg ts) ::
        Event.notify (snapPath cfg ts) ::
        Event.sleepCooldown cfg.waitAfterMotion :: throttleTail cfg 0,
       ⟨none, throttleNext cfg 0⟩) := by
  simp only [loopBody, hprev, throttleTail, throttleNext]
  rw [if_pos htrig]
  split
  · split <;> simp
  · simp

lemma loopBody_no_trigger_eq (cfg : Config) (st : DState) (buf p : List ℕ)
    (ts : String) (hprev : st.prev = some p)
    (hno : ¬ metric buf p > cfg.motionThreshold) :
    loopBody cfg st buf ts =
      (Event.captureBuffer :: Event.compare (metric buf p) ::
        throttleTail cfg st.nloop,
       ⟨some buf, throttleNext cfg st.nloop⟩) := by
  simp only [loopBody, hprev, throttleTail, throttleNext]
  rw [if_neg hno]
  split
  · split <;> simp
  · simp

lemma throttleTail_all (cfg : Config) (n : ℕ) :
    ∀ e ∈ throttleTail cfg n, e = Event.sleepThrottle cfg.waitAfterNLoops := by
  intro e he
  unfold throttleTail at he
  split at he
  · split at he
    · simpa using he
    · simp at he
  · simp at he

lemma throttleTail_filter (cfg : Config) (n : ℕ) (q : Event → Bool)
    (hq : q (Event.sleepThrottle cfg.waitAfterNLoops) = false) :
    (throttleTail cfg n).filter q = [] := by
  unfold throttleTail
  split
  · split
    · simp [hq]
    · rfl
  · rfl

/-- C3: when a Sampling comparison exceeds the threshold, the iteration
of `detect_motion` saves exactly one snapshot, at
`<SNAPSHOT_DIR>/motion_<timestamp>.jpg`, invokes the notifier exactly
once with that path, sleeps the `WAIT_AFTER_MOTION` cooldown immediately
after the notification with no comparison in between, and the following
iteration performs no comparison at all. -/
theorem detect_motion_trigger_once (cfg : Config) (st : DState)
    (buf p : List ℕ) (ts : String) (hprev : st.prev = some p)
    (htrig : metric buf p > cfg.motionThreshold) :
    (loopBody cfg st buf ts).1.filter Event.isSave
        = [Event.saveSnapshot (snapPath cfg ts)]
    ∧ (loopBody cfg st buf ts).1.filter Event.isNotify
        = [Event.notify (snapPath cfg ts)]
    ∧ (∃ pre post, (loopBody cfg st buf ts).1
          = pre ++ Event.notify (snapPath cfg ts)
              :: Event.sleepCooldown cfg.waitAfterMotion :: post
          ∧ ∀ e ∈ post, e.isCompare = false)
    ∧ (∀ b2 ts2,
        (loopBody cfg (loopBody cfg st buf ts).2 b2 ts2).1.filter
            Event.isCompare = []) := by
  rw [loopBody_trigger_eq cfg st buf p ts hprev htrig]
  refine ⟨?_, ?_, ?_, ?_⟩
  · simp [List.filter, Event.isSave,
      throttleTail_filter cfg 0 Event.isSave rfl]
  · simp [List.filter, Event.isNotify,
      throttleTail_filter cfg 0 Event.isNotify rfl]
  · refine ⟨[Event.captureBuffer, Event.compare (metric buf p),
      Event.captureStill, Event.saveSnapshot (snapPath cfg ts)],
      throttleTail cfg 0, by simp, ?_⟩
    intro e he
    rw [throttleTail_all cfg 0 e he]
    rfl
  · intro b2 ts2
    rw [loopBody_prev_none cfg ⟨none, throttleNext cfg 0⟩ b2 ts2 rfl]
    simp [List.filter, Event.isCompare,
      throttleTail_filter cfg (throttleNext cfg 0) Event.isCompare rfl]

/-- Witness for `detect_motion_trigger_once`: previous buffer `[0, 0]`,
current `[10, 10]`, metric `100 > 12`. -/
theorem detect_motion_trigger_once_witness :
    (loopBody ⟨"tok", 12, 30, 5, 15, "/tmp"⟩ ⟨some [0, 0], 3⟩ [10, 10] "T").1.filter
        Event.isSave
      = [Event.saveSnapshot (snapPath ⟨"tok", 12, 30, 5, 15, "/tmp"⟩ "T")] := by
  have h := detect_motion_trigger_once ⟨"tok", 12, 30, 5, 15, "/tmp"⟩
    ⟨some [0, 0], 3⟩ [10, 10] [0, 0] "T" rfl (by
      norm_num [metric, pixDiffSq, List.zipWith])
  exact h.1

/-- C9: after a trigger, `detect_motion` sets the current buffer to
`None` before it becomes `prev` and resets the loop counter to 0 (which
the duty-cycle bottom of the same iteration then advances from 0, i.e.
to `throttleNext cfg 0`), so the first iteration after the cooldown
performs no comparison and installs its freshly captured buffer as the
new comparison baseline. -/
theorem detect_motion_trigger_resets_baseline (cfg : Config) (st : DState)
    (buf p : List ℕ) (ts : String) (hprev : st.prev = some p)
    (htrig : metric buf p > cfg.motionThreshold) :
    (loopBody cfg st buf ts).2.prev = none
    ∧ (loopBody cfg st buf ts).2.nloop = throttleNext cfg 0
    ∧ (∀ b2 ts2,
        (loopBody cfg (loopBody cfg st buf ts).2 b2 ts2).1.filter
            Event.isCompare = []
        ∧ (loopBody cfg (loopBody cfg st buf ts).2 b2 ts2).2.prev
            = some b2) := by
  rw [loopBody_trigger_eq cfg st buf p ts hprev htrig]
  refine ⟨rfl, rfl, ?_⟩
  intro b2 ts2
  rw [loopBody_prev_none cfg ⟨none, throttleNext cfg 0⟩ b2 ts2 rfl]
  constructor
  · simp [List.filter, Event.isCompare,
      throttleTail_filter cfg (throttleNext cfg 0) Event.isCompare rfl]
  · rfl

/-- Witness for `detect_motion_trigger_resets_baseline` at the same
concrete trigger as `detect_motion_trigger_once_witness`. -/
theorem detect_motion_trigger_resets_baseline_witness :
    (loopBody ⟨"tok", 12, 30, 5, 15, "/tmp"⟩ ⟨some [0, 0], 3⟩ [10, 10] "T").2.prev
      = none := by
  have h := detect_motion_trigger_resets_baseline ⟨"tok", 12, 30, 5, 15, "/tmp"⟩
    ⟨some [0, 0], 3⟩ [10, 10] [0, 0] "T" rfl (by
      norm_num [metric, pixDiffSq, List.zipWith])
  exact h.1

/-- C4: with an empty `PRINTER_TOKEN`, `detect_motion` logs the
abstention message and returns before its loop: its whole trace is that
single log entry, with zero buffer captures, zero snapshot saves and
zero notifications, however many frames the camera would have offered. -/
theorem detect_motion_no_token_abstains (cfg : Config)
    (inputs : List (List ℕ × String)) (h : cfg.token = "") :
    detectMotion cfg inputs = [Event.log tokenErrMsg]
    ∧ (detectMotion cfg inputs).filter Event.isCaptureBuffer = []
    ∧ (detectMotion cfg inputs).filter Event.isNotify = []
    ∧ (detectMotion cfg inputs).filter Event.isSave = [] := by
  refine ⟨?_, ?_, ?_, ?_⟩ <;>
    simp [detectMotion, h, List.filter, Event.isCaptureBuffer,
      Event.isNotify, Event.isSave]

/-- Witness for `detect_motion_no_token_abstains`: empty token, three
pending frames; the trace is just the log line. -/
theorem detect_motion_no_token_abstains_witness :
    detectMotion ⟨"", 12, 30, 5, 15, "/tmp"⟩
        [([1], "a"), ([2], "b"), ([3], "c")]
      = [Event.log tokenErrMsg] :=
  (detect_motion_no_token_abstains ⟨"", 12, 30, 5, 15, "/tmp"⟩
    [([1], "a"), ([2], "b"), ([3], "c")] rfl).1

lemma throttleTail_nonpos (cfg : Config) (h : cfg.motionNLoops ≤ 0)
    (n : ℕ) : throttleTail cfg n = [] := by
  simp [throttleTail, not_lt.mpr h]

lemma throttleNext_nonpos (cfg : Config) (h : cfg.motionNLoops ≤ 0)
    (n : ℕ) : throttleNext cfg n = n := by
  simp [throttleNext, not_lt.mpr h]

lemma loopBody_nonpos (cfg : Config) (st : DState) (buf : List ℕ)
    (ts : String) (h : cfg.motionNLoops ≤ 0) :
    (loopBody cfg st buf ts).1.filter Event.isThrottle = []
    ∧ ((loopBody cfg st buf ts).2.nloop = st.nloop
        ∨ (loopBody cfg st buf ts).2.nloop = 0) := by
  cases hp : st.prev with
  | none =>
      rw [loopBody_prev_none cfg st buf ts hp]
      simp [throttleTail_nonpos cfg h, throttleNext_nonpos cfg h,
        List.filter, Event.isThrottle]
  | some p =>
      by_cases htr : metric buf p > cfg.motionThreshold
      · rw [loopBody_trigger_eq cfg st buf p ts hp htr]
        simp [throttleTail_nonpos cfg h, throttleNext_nonpos cfg h,
          List.filter, Event.isThrottle]
      · rw [loopBody_no_trigger_eq cfg st buf p ts hp htr]
        simp [throttleTail_nonpos cfg h, throttleNext_nonpos cfg h,
          List.filter, Event.isThrottle]

/-- C10: when `MOTION_N_LOOPS` is 0 or negative, the guard
`if MOTION_N_LOOPS > 0` keeps the duty-cycle branch unreachable: over
every run of `detect_motion`, the trace contains no throttle sleep and
the loop counter is never advanced by the modulo (it keeps its initial
value unless a trigger resets it to 0). -/
theorem detect_motion_nonpositive_nloops (cfg : Config) (st : DState)
    (inputs : List (List ℕ × String)) (h : cfg.motionNLoops ≤ 0) :
    (runLoop cfg st inputs).1.filter Event.isThrottle = []
    ∧ ((runLoop cfg st inputs).2.nloop = st.nloop
        ∨ (runLoop cfg st inputs).2.nloop = 0) := by
  induction inputs generalizing st with
  | nil => simp [runLoop]
  | cons bt rest ih =>
      obtain ⟨b, ts⟩ := bt
      have h1 := loopBody_nonpos cfg st b ts h
      have h2 := ih (loopBody cfg st b ts).2
      constructor
      · simp [runLoop, List.filter_append, h1.1, h2.1]
      · have he : (runLoop cfg st ((b, ts) :: rest)).2
            = (runLoop cfg (loopBody cfg st b ts).2 rest).2 := by
          simp [runLoop]
        rw [he]
        rcases h2.2 with h3 | h3
        · rw [h3]
          exact h1.2
        · exact Or.inr h3

/-- Witness for `detect_motion_nonpositive_nloops`:
`MOTION_N_LOOPS = 0`, two iterations, no throttle sleep in the trace. -/
theorem detect_motion_nonpositive_nloops_witness :
    (runLoop ⟨"tok", 12, 30, 5, 0, "/tmp"⟩ ⟨none, 0⟩
        [([1], "a"), ([1], "b")]).1.filter Event.isThrottle = [] :=
  (detect_motion_nonpositive_nloops ⟨"tok", 12, 30, 5, 0, "/tmp"⟩ ⟨none, 0⟩
    [([1], "a"), ([1], "b")] (by norm_num)).1

/-- C5: with `MOTION_N_LOOPS = 15`, after 15 consecutive Sampling
iterations of `detect_motion` with no trigger the only throttle sleep
of the trace is a single `time.sleep(WAIT_AFTER_N_LOOPS)` and it is
the very last event (so it happens before iteration 16), the counter
is back at 0 with the last buffer as baseline, and the next iteration
resumes Sampling: it performs a comparison and no throttle sleep. -/
theorem detect_motion_throttle_after_15_loops (cfg : Config)
    (b1 b2 b3 b4 b5 b6 b7 b8 b9 b10 b11 b12 b13 b14 b15 : List ℕ)
    (t1 t2 t3 t4 t5 t6 t7 t8 t9 t10 t11 t12 t13 t14 t15 : String)
    (hM : cfg.motionNLoops = 15)
    (h2 : ¬ metric b2 b1 > cfg.motionThreshold)
    (h3 : ¬ metric b3 b2 > cfg.motionThreshold)
    (h4 : ¬ metric b4 b3 > cfg.motionThreshold)
    (h5 : ¬ metric b5 b4 > cfg.motionThreshold)
    (h6 : ¬ metric b6 b5 > cfg.motionThreshold)
    (h7 : ¬ metric b7 b6 > cfg.motionThreshold)
    (h8 : ¬ metric b8 b7 > cfg.motionThreshold)
    (h9 : ¬ metric b9 b8 > cfg.motionThreshold)
    (h10 : ¬ metric b10 b9 > cfg.motionThreshold)
    (h11 : ¬ metric b11 b10 > cfg.motionThreshold)
    (h12 : ¬ metric b12 b11 > cfg.motionThreshold)
    (h13 : ¬ metric b13 b12 > cfg.motionThreshold)
    (h14 : ¬ metric b14 b13 > cfg.motionThreshold)
    (h15 : ¬ metric b15 b14 > cfg.motionThreshold) :
    (runLoop cfg ⟨none, 0⟩ [(b1, t1), (b2, t2), (b3, t3), (b4, t4), (b5, t5), (b6, t6), (b7, t7), (b8, t8), (b9, t9), (b10, t10), (b11, t11), (b12, t12), (b13, t13), (b14, t14), (b15, t15)]).1.filter Event.isThrottle
        = [Event.sleepThrottle cfg.waitAfterNLoops]
    ∧ (runLoop cfg ⟨none, 0⟩ [(b1, t1), (b2, t2), (b3, t3), (b4, t4), (b5, t5), (b6, t6), (b7, t7), (b8, t8), (b9, t9), (b10, t10), (b11, t11), (b12, t12), (b13, t13), (b14, t14), (b15, t15)]).1.getLast?
        = some (Event.sleepThrottle cfg.waitAfterNLoops)
    ∧ (runLoop cfg ⟨none, 0⟩ [(b1, t1), (b2, t2), (b3, t3), (b4, t4), (b5, t5), (b6, t6), (b7, t7), (b8, t8), (b9, t9), (b10, t10), (b11, t11), (b12, t12), (b13, t13), (b14, t14), (b15, t15)]).2 = ⟨some b15, 0⟩
    ∧ (∀ b16 t16,
        (loopBody cfg (runLoop cfg ⟨none, 0⟩ [(b1, t1), (b2, t2), (b3, t3), (b4, t4), (b5, t5), (b6, t6), (b7, t7), (b8, t8), (b9, t9), (b10, t10), (b11, t11), (b12, t12), (b13, t13), (b14, t14), (b15, t15)]).2 b16 t16).1.filter
            Event.isThrottle = []
        ∧ (loopBody cfg (runLoop cfg ⟨none, 0⟩ [(b1, t1), (b2, t2), (b3, t3), (b4, t4), (b5, t5), (b6, t6), (b7, t7), (b8, t8), (b9, t9), (b10, t10), (b11, t11), (b12, t12), (b13, t13), (b14, t14), (b15, t15)]).2 b16 t16).1.filter
            Event.isCompare = [Event.compare (metric b16 b15)]) := by
  have s1 : loopBody cfg ⟨none, 0⟩ b1 t1
      = ([Event.captureBuffer], ⟨some b1, 1⟩) := by
    rw [loopBody_prev_none cfg ⟨none, 0⟩ b1 t1 rfl]
    simp [throttleTail, throttleNext, hM]
  have s2 : loopBody cfg ⟨some b1, 1⟩ b2 t2
      = ([Event.captureBuffer, Event.compare (metric b2 b1)],
         ⟨some b2, 2⟩) := by
    rw [loopBody_no_trigger_eq cfg ⟨some b1, 1⟩ b2 b1 t2 rfl h2]
    simp [throttleTail, throttleNext, hM]
  have s3 : loopBody cfg ⟨some b2, 2⟩ b3 t3
      = ([Event.captureBuffer, Event.compare (metric b3 b2)],
         ⟨some b3, 3⟩) := by
    rw [loopBody_no_trigger_eq cfg ⟨some b2, 2⟩ b3 b2 t3 rfl h3]
    simp [throttleTail, throttleNext, hM]
  have s4 : loopBody cfg ⟨some b3, 3⟩ b4 t4
      = ([Event.captureBuffer, Event.compare (metric b4 b3)],
         ⟨some b4, 4⟩) := by
    rw [loopBody_no_trigger_eq cfg ⟨some b3, 3⟩ b4 b3 t4 rfl h4]
    simp [throttleTail, throttleNext, hM]
  have s5 : loopBody cfg ⟨some b4, 4⟩ b5 t5
      = ([Event.captureBuffer, Event.compare (metric b5 b4)],
         ⟨some b5, 5⟩) := by
    rw [loopBody_no_trigger_eq cfg ⟨some b4, 4⟩ b5 b4 t5 rfl h5]
    simp [throttleTail, throttleNext, hM]
  have s6 : loopBody cfg ⟨some b5, 5⟩ b6 t6
      = ([Event.captureBuffer, Event.compare (metric b6 b5)],
         ⟨some b6, 6⟩) := by
    rw [loopBody_no_trigger_eq cfg ⟨some b5, 5⟩ b6 b5 t6 rfl h6]
    simp [throttleTail, throttleNext, hM]
  have s7 : loopBody cfg ⟨some b6, 6⟩ b7 t7
      = ([Event.captureBuffer, Event.compare (metric b7 b6)],
         ⟨some b7, 7⟩) := by
    rw [loopBody_no_trigger_eq cfg ⟨some b6, 6⟩ b7 b6 t7 rfl h7]
    simp [throttleTail, throttleNext, hM]
  have s8 : loopBody cfg ⟨some b7, 7⟩ b8 t8
      = ([Event.captureBuffer, Event.compare (metric b8 b7)],
         ⟨some b8, 8⟩) := by
    rw [loopBody_no_trigger_eq cfg ⟨some b7, 7⟩ b8 b7 t8 rfl h8]
    simp [throttleTail, throttleNext, hM]
  have s9 : loopBody cfg ⟨some b8, 8⟩ b9 t9
      = ([Event.captureBuffer, Event.compare (metric b9 b8)],
         ⟨some b9, 9⟩) := by
    rw [loopBody_no_trigger_eq cfg ⟨some b8, 8⟩ b9 b8 t9 rfl h9]
    simp [throttleTail, throttleNext, hM]
  have s10 : loopBody cfg ⟨some b9, 9⟩ b10 t10
      = ([Event.captureBuffer, Event.compare (metric b10 b9)],
         ⟨some b10, 10⟩) := by
    rw [loopBody_no_trigger_eq cfg ⟨some b9, 9⟩ b10 b9 t10 rfl h10]
    simp [throttleTail, throttleNext, hM]
  have s11 : loopBody cfg ⟨some b10, 10⟩ b11 t11
      = ([Event.captureBuffer, Event.compare (metric b11 b10)],
         ⟨some b11, 11⟩) := by
    rw [loopBody_no_trigger_eq cfg ⟨some b10, 10⟩ b11 b10 t11 rfl h11]
    simp [throttleTail, throttleNext, hM]
  have s12 : loopBody cfg ⟨some b11, 11⟩ b12 t12
      = ([Event.captureBuffer, Event.compare (metric b12 b11)],
         ⟨some b12, 12⟩) := by
    rw [loopBody_no_trigger_eq cfg ⟨some b11, 11⟩ b12 b11 t12 rfl h12]
    simp [throttleTail, throttleNext, hM]
  have s13 : loopBody cfg ⟨some b12, 12⟩ b13 t13
      = ([Event.captureBuffer, Event.compare (metric b13 b12)],
         ⟨some b13, 13⟩) := by
    rw [loopBody_no_trigger_eq cfg ⟨some b12, 12⟩ b13 b12 t13 rfl h13]
    simp [throttleTail, throttleNext, hM]
  have s14 : loopBody cfg ⟨some b13, 13⟩ b14 t14
      = ([Event.captureBuffer, Event.compare (metric b14 b13)],
         ⟨some b14, 14⟩) := by
    rw [loopBody_no_trigger_eq cfg ⟨some b13, 13⟩ b14 b13 t14 rfl h14]
    simp [throttleTail, throttleNext, hM]
  have s15 : loopBody cfg ⟨some b14, 14⟩ b15 t15
      = ([Event.captureBuffer, Event.compare (metric b15 b14),
          Event.sleepThrottle cfg.waitAfterNLoops],
         ⟨some b15, 0⟩) := by
    rw [loopBody_no_trigger_eq cfg ⟨some b14, 14⟩ b15 b14 t15 rfl h15]
    simp [throttleTail, throttleNext, hM]
  have hrun : runLoop cfg ⟨none, 0⟩ [(b1, t1), (b2, t2), (b3, t3), (b4, t4), (b5, t5), (b6, t6), (b7, t7), (b8, t8), (b9, t9), (b10, t10), (b11, t11), (b12, t12), (b13, t13), (b14, t14), (b15, t15)]
      = ([Event.captureBuffer,
        Event.captureBuffer,
        Event.compare (metric b2 b1),
        Event.captureBuffer,
        Event.compare (metric b3 b2),
        Event.captureBuffer,
        Event.compare (metric b4 b3),
        Event.captureBuffer,
        Event.compare (metric b5 b4),
        Event.captureBuffer,
        Event.compare (metric b6 b5),
        Event.captureBuffer,
        Event.compare (metric b7 b6),
        Event.captureBuffer,
        Event.compare (metric b8 b7),
        Event.captureBuffer,
        Event.compare (metric b9 b8),
        Event.captureBuffer,
        Event.compare (metric b10 b9),
        Event.captureBuffer,
        Event.compare (metric b11 b10),
        Event.captureBuffer,
        Event.compare (metric b12 b11),
        Event.captureBuffer,
        Event.compare (metric b13 b12),
        Event.captureBuffer,
        Event.compare (metric b14 b13),
        Event.captureBuffer,
        Event.compare (metric b15 b14),
        Event.sleepThrottle cfg.waitAfterNLoops],
         ⟨some b15, 0⟩) := by
    simp [runLoop, s1, s2, s3, s4, s5, s6, s7, s8, s9, s10, s11, s12, s13, s14, s15]
  have hT0 : throttleTail cfg 0 = [] := by
    simp [throttleTail, hM]
  refine ⟨?_, ?_, ?_, ?_⟩
  · rw [hrun]
    simp [List.filter, Event.isThrottle]
  · rw [hrun]
    rfl
  · rw [hrun]
  · intro b16 t16
    rw [hrun]
    by_cases htr : metric b16 b15 > cfg.motionThreshold
    · rw [loopBody_trigger_eq cfg ⟨some b15, 0⟩ b16 b15 t16 rfl htr]
      simp [List.filter, Event.isThrottle, Event.isCompare, hT0]
    · rw [loopBody_no_trigger_eq cfg ⟨some b15, 0⟩ b16 b15 t16 rfl htr]
      simp [List.filter, Event.isThrottle, Event.isCompare, hT0]

/-- Witness for `detect_motion_throttle_after_15_loops`: fifteen
identical buffers under threshold 12. -/
theorem detect_motion_throttle_after_15_loops_witness :
    (runLoop ⟨"tok", 12, 30, 5, 15, "/tmp"⟩ ⟨none, 0⟩
        [([0], "x"), ([0], "x"), ([0], "x"), ([0], "x"), ([0], "x"), ([0], "x"), ([0], "x"), ([0], "x"), ([0], "x"), ([0], "x"), ([0], "x"), ([0], "x"), ([0], "x"), ([0], "x"), ([0], "x")]).1.filter Event.isThrottle
      = [Event.sleepThrottle 5] := by
  have hno : ¬ metric [0] [0] > (12 : ℚ) := by
    norm_num [metric, pixDiffSq, List.zipWith]
  have h := detect_motion_throttle_after_15_loops
    ⟨"tok", 12, 30, 5, 15, "/tmp"⟩
    [0] [0] [0] [0] [0] [0] [0] [0] [0] [0] [0] [0] [0] [0] [0]
    "x" "x" "x" "x" "x" "x" "x" "x" "x" "x" "x" "x" "x" "x" "x"
    rfl hno hno hno hno hno hno hno hno hno hno hno hno hno hno
  exact h.1

/- ### HTTP streaming handler (`StreamingHandler.do_GET`, lines 185-218)

The handler sends `send_response(200)`, four `send_header` calls and
`end_headers`, then loops writing one multipart chunk per observed
frame. Bytes are modelled as the code points of the ASCII header text
plus the raw frame bytes. -/

/-- The bytes of an ASCII header string. -/
def strBytes (s : String) : List ℕ := s.data.map Char.toNat

/-- Python `send_header(k, v)`: the buffered header line `k: v` plus CRLF. -/
def sendHeaderBytes (k v : String) : List ℕ :=
  strBytes (k ++ ": " ++ v ++ "\r\n")

/-- Python `end_headers()`: the blank line terminating a header block. -/
def endHeadersBytes : List ℕ := strBytes "\r\n"

/-- The status code and headers `do_GET` sends before the body
(lines 195-200). -/
def doGetStart : ℕ × List (String × String) :=
  (200,
   [("Age", "0"),
    ("Cache-Control", "no-cache, private"),
    ("Pragma", "no-cache"),
    ("Content-Type", "multipart/x-mixed-replace; boundary=FRAME")])

/-- The bytes one pass of the `do_GET` loop writes for `frame`
(lines 208-213): boundary, part headers via `send_header` and
`end_headers`, the raw frame bytes, trailing CRLF. -/
def framePartBytes (frame : List ℕ) : List ℕ :=
  strBytes "--FRAME\r\n"
    ++ sendHeaderBytes "Content-Type" "image/jpeg"
    ++ sendHeaderBytes "Content-Length" (toString frame.length)
    ++ endHeadersBytes
    ++ frame
    ++ strBytes "\r\n"

/-- The body bytes `do_GET` writes for a finite sequence of observed
frames. -/
def streamBody (frames : List (List ℕ)) : List ℕ :=
  (frames.map framePartBytes).flatten

/-- The spec's wording of one body part (§6): literal `--FRAME\r\n`,
the header line `Content-Type: image/jpeg\r\n`, the header line
`Content-Length: <n>\r\n`, a blank line, the raw JPEG bytes, and a
trailing `\r\n`. Stated separately from `framePartBytes` so the code
can be proved to refine it. -/
def specPartBytes (frame : List ℕ) : List ℕ :=
  strBytes "--FRAME\r\n"
    ++ strBytes "Content-Type: image/jpeg\r\n"
    ++ strBytes ("Content-Length: " ++ toString frame.length ++ "\r\n")
    ++ strBytes "\r\n"
    ++ frame ++ strBytes "\r\n"

lemma framePartBytes_eq_specPartBytes :
    framePartBytes = specPartBytes := by
  funext frame
  have h1 : ("Content-Type" ++ ": ") ++ "image/jpeg" ++ "\r\n"
      = "Content-Type: image/jpeg\r\n" := rfl
  have h2 : ("Content-Length" ++ ": ") = "Content-Length: " := rfl
  simp only [framePartBytes, specPartBytes, sendHeaderBytes,
    endHeadersBytes, h1, h2, List.append_assoc]

/-- C6: `do_GET` answers every request with status 200 and exactly the
four no-cache/multipart headers, and its body is, frame by frame, the
spec's part grammar: `--FRAME\r\n`, `Content-Type: image/jpeg`,
`Content-Length` equal to the frame's byte length, a blank line, the raw
bytes, and a trailing CRLF. -/
theorem do_get_response_format :
    doGetStart = (200,
      [("Age", "0"),
       ("Cache-Control", "no-cache, private"),
       ("Pragma", "no-cache"),
       ("Content-Type", "multipart/x-mixed-replace; boundary=FRAME")])
    ∧ ∀ frames, streamBody frames = (frames.map specPartBytes).flatten := by
  refine ⟨rfl, fun frames => ?_⟩
  rw [streamBody, framePartBytes_eq_specPartBytes]

/- ### Frame bus (`StreamingOutput`, lines 172-181) -/

/-- The state of `StreamingOutput`: the single `frame` slot and the
sessions currently blocked in `condition.wait()`. -/
structure SOState where
  frame : Option (List ℕ)
  waiters : List ℕ
deriving DecidableEq

/-- Method `StreamingOutput.write(buf)` under the condition lock: overwrite the
slot with the new frame, `notify_all()`. Returns the new state and the
sessions the broadcast wakes (all current waiters). -/
def SOState.write (st : SOState) (buf : List ℕ) : SOState × List ℕ :=
  (⟨some buf, []⟩, st.waiters)

/-- The frames the bus retains. -/
def SOState.retained (st : SOState) : List (List ℕ) := st.frame.toList

/-- Publish a whole sequence of frames through `write`. -/
def publishAll (st : SOState) (bufs : List (List ℕ)) : SOState :=
  bufs.foldl (fun s b => (s.write b).1) st

lemma publishAll_frame (bufs : List (List ℕ)) (st : SOState)
    (h : bufs ≠ []) : (publishAll st bufs).frame = bufs.getLast? := by
  induction bufs generalizing st with
  | nil => exact absurd rfl h
  | cons b rest ih =>
      cases rest with
      | nil => rfl
      | cons c r =>
          rw [List.getLast?_cons_cons]
          exact ih ⟨some b, []⟩ (List.cons_ne_nil c r)

/-- C7: the frame bus retains at most one frame after any sequence of
publishes — the slot holds exactly the most recent frame — and each
`write` replaces the slot with its argument and wakes every waiter, so
the memory held in frames is a single frame however many publishes have
happened. -/
theorem streaming_output_single_frame (st : SOState)
    (bufs : List (List ℕ)) (h : bufs ≠ []) :
    (publishAll st bufs).retained.length ≤ 1
    ∧ (publishAll st bufs).frame = bufs.getLast?
    ∧ ∀ buf, (st.write buf).2 = st.waiters
        ∧ (st.write buf).1.retained = [buf] := by
  refine ⟨?_, publishAll_frame bufs st h, fun buf => ⟨rfl, rfl⟩⟩
  cases hf : (publishAll st bufs).frame <;>
    simp [SOState.retained, hf]

/-- Witness for `streaming_output_single_frame`: two publishes onto a
bus with one waiter; only the second frame is retained. -/
theorem streaming_output_single_frame_witness :
    (publishAll ⟨none, [7]⟩ [[1], [2]]).retained.length ≤ 1
    ∧ (publishAll ⟨none, [7]⟩ [[1], [2]]).frame = some [2] :=
  ⟨(streaming_output_single_frame ⟨none, [7]⟩ [[1], [2]]
      (by decide)).1,
   (streaming_output_single_frame ⟨none, [7]⟩ [[1], [2]]
      (by decide)).2.1⟩

/- ### Startup rotation configuration (lines 357-360, 407) -/

/-- A libcamera `Transform`: horizontal and vertical flip flags. -/
structure Transform where
  hflip : Bool
  vflip : Bool
deriving DecidableEq

/-- Line 407: `Transform(hflip=1, vflip=1) if ROTATION == 180 else
Transform()`. The parsed `--rot` value reaches this expression with no
validation anywhere in between (argparse only enforces `type=int`). -/
def rotationTransform (rot : ℤ) : Transform :=
  if rot = 180 then ⟨true, true⟩ else ⟨false, false⟩

/-- C2 (code bug): startup does not reject a rotation of 90. The value
flows straight into the transform expression and is silently treated
exactly like 0 (identity transform), contradicting the source's own
doc: "Only 0 and 180 degrees are accepted" and the `--rot` help text
"Valid: 0, 180". -/
theorem rotation_90_not_rejected :
    rotationTransform 90 = ⟨false, false⟩
    ∧ rotationTransform 90 = rotationTransform 0 := by
  exact ⟨rfl, rfl⟩

/- ### Session ordering over the frame bus (C8)

Each `do_GET` session loops `condition.wait(); frame = output.frame`
under the lock (lines 202-213) while the encoder thread calls
`StreamingOutput.write` (lines 178-181). Publishes are numbered and
`pubCount` stands for the sequence number of the frame currently in the
slot; condition-variable semantics make a `wait` return only after a
`notify_all` issued by a `write` that happened after the wait began. -/

/-- One `do_GET` session: the publish index of the last frame it read,
and, while blocked in `condition.wait()`, the publish count observed
when the wait began. -/
structure Sess where
  lastRead : Option ℕ
  waitStart : Option ℕ
deriving DecidableEq

/-- The shared bus (publish counter) plus every session, by id. -/
structure BusState where
  pubCount : ℕ
  sess : ℕ → Sess

/-- An interleaving step: a publish (`write` + `notify_all`), a session
entering `condition.wait()`, or a session waking from the wait and
reading `output.frame`. -/
inductive SStep where
  | publish
  | beginWait (sid : ℕ)
  | wakeRead (sid : ℕ)
deriving DecidableEq

/-- Small-step transition; `none` when the step is not enabled. A
`wakeRead` is enabled only when some publish (whose `notify_all` wakes
the sleeper) happened strictly after the wait began. -/
def step (st : BusState) : SStep → Option BusState
  | .publish => some ⟨st.pubCount + 1, st.sess⟩
  | .beginWait i =>
      match (st.sess i).waitStart with
      | some _ => none
      | none => some ⟨st.pubCount,
          Function.update st.sess i ⟨(st.sess i).lastRead, some st.pubCount⟩⟩
  | .wakeRead i =>
      match (st.sess i).waitStart with
      | none => none
      | some w =>
          if w < st.pubCount then
            some ⟨st.pubCount, Function.update st.sess i ⟨some st.pubCount, none⟩⟩
          else none

/-- The sequence numbers session `i` reads along a trace (cut off at the
first step that is not enabled). -/
def readsFrom (st : BusState) (i : ℕ) : List SStep → List ℕ
  | [] => []
  | s :: rest =>
      match step st s with
      | none => []
      | some st' =>
          (if s = SStep.wakeRead i then [st'.pubCount] else [])
            ++ readsFrom st' i rest

/-- Startup: nothing published, no session waiting or having read. -/
def initialBus : BusState := ⟨0, fun _ => ⟨none, none⟩⟩

/-- Bus invariant: whatever a session last read is no newer than the
current publish count, and no newer than the publish count its ongoing
wait started at. -/
def busInv (st : BusState) : Prop :=
  ∀ i, (∀ r ∈ (st.sess i).lastRead, r ≤ st.pubCount)
    ∧ (∀ r ∈ (st.sess i).lastRead, ∀ w ∈ (st.sess i).waitStart, r ≤ w)

lemma busInv_initial : busInv initialBus := by
  intro i
  constructor <;> intro r hr <;> simp [initialBus] at hr


lemma step_publish_inv {st st' : BusState}
    (h : step st SStep.publish = some st') :
    st' = ⟨st.pubCount + 1, st.sess⟩ := by
  simpa [step] using h.symm

lemma step_beginWait_inv {st st' : BusState} {i : ℕ}
    (h : step st (SStep.beginWait i) = some st') :
    (st.sess i).waitStart = none
    ∧ st' = ⟨st.pubCount,
        Function.update st.sess i
          ⟨(st.sess i).lastRead, some st.pubCount⟩⟩ := by
  revert h
  cases hw : (st.sess i).waitStart with
  | some w => intro h; simp [step, hw] at h
  | none =>
      intro h
      simp only [step, hw] at h
      exact ⟨rfl, (Option.some.inj h).symm⟩

lemma step_wakeRead_inv {st st' : BusState} {i : ℕ}
    (h : step st (SStep.wakeRead i) = some st') :
    ∃ w, (st.sess i).waitStart = some w ∧ w < st.pubCount
      ∧ st' = ⟨st.pubCount,
          Function.update st.sess i ⟨some st.pubCount, none⟩⟩ := by
  revert h
  cases hw : (st.sess i).waitStart with
  | none => intro h; simp [step, hw] at h
  | some w =>
      intro h
      simp only [step, hw] at h
      split at h
      case isTrue hlt => exact ⟨w, rfl, hlt, (Option.some.inj h).symm⟩
      case isFalse => exact absurd h (by simp)

lemma busInv_step {st st' : BusState} {s : SStep}
    (h : step st s = some st') (hinv : busInv st) : busInv st' := by
  cases s with
  | publish =>
      rw [step_publish_inv h]
      intro j
      exact ⟨fun r hr => le_trans ((hinv j).1 r hr) (Nat.le_succ _),
        (hinv j).2⟩
  | beginWait i =>
      obtain ⟨hw, he⟩ := step_beginWait_inv h
      subst he
      intro j
      by_cases hij : j = i
      · subst hij
        refine ⟨?_, ?_⟩
        · intro r hr
          simp only [Function.update_same] at hr
          exact (hinv j).1 r hr
        · intro r hr w' hw'
          simp only [Function.update_same] at hr hw'
          have h3 : st.pubCount = w' := by simpa using hw'
          exact h3 ▸ (hinv j).1 r hr
      · simp only [Function.update_noteq hij]
        exact hinv j
  | wakeRead i =>
      obtain ⟨w, hw, hlt, he⟩ := step_wakeRead_inv h
      subst he
      intro j
      by_cases hij : j = i
      · subst hij
        refine ⟨?_, ?_⟩
        · intro r hr
          simp only [Function.update_same] at hr
          have h3 : st.pubCount = r := by simpa using hr
          exact le_of_eq h3.symm
        · intro r hr w' hw'
          simp only [Function.update_same] at hw'
          simp at hw'
      · simp only [Function.update_noteq hij]
        exact hinv j

lemma readsFrom_chain (i : ℕ) :
    ∀ (steps : List SStep) (st : BusState), busInv st →
      List.Chain' (· < ·)
        ((st.sess i).lastRead.toList ++ readsFrom st i steps) := by
  intro steps
  induction steps with
  | nil =>
      intro st _
      cases (st.sess i).lastRead <;> simp [readsFrom]
  | cons s rest ih =>
      intro st hinv
      cases hstep : step st s with
      | none =>
          simp only [readsFrom, hstep]
          cases (st.sess i).lastRead <;> simp
      | some st' =>
          have hinv' : busInv st' := busInv_step hstep hinv
          have ihs := ih st' hinv'
          by_cases hs : s = SStep.wakeRead i
          · subst hs
            obtain ⟨w, hw, hlt, he⟩ := step_wakeRead_inv hstep
            have hpc : st'.pubCount = st.pubCount := by rw [he]
            have hlr : (st'.sess i).lastRead = some st.pubCount := by
              rw [he]; simp [Function.update_same]
            rw [hlr] at ihs
            simp only [readsFrom, hstep, if_pos rfl, List.singleton_append,
              hpc]
            cases hcase : (st.sess i).lastRead with
            | none =>
                simp only [hcase, Option.toList_none, List.nil_append]
                simpa using ihs
            | some r =>
                have hrw : r ≤ w :=
                  (hinv i).2 r (by simp [hcase]) w (by simp [hw])
                have hrlt : r < st.pubCount := lt_of_le_of_lt hrw hlt
                simp only [hcase, Option.toList_some, List.singleton_append]
                exact List.chain'_cons.mpr ⟨hrlt, by simpa using ihs⟩
          · have hlr : (st'.sess i).lastRead = (st.sess i).lastRead := by
              cases s with
              | publish => rw [step_publish_inv hstep]
              | beginWait j =>
                  obtain ⟨hw, he⟩ := step_beginWait_inv hstep
                  subst he
                  by_cases hij : i = j
                  · subst hij; simp [Function.update_same]
                  · simp [Function.update_noteq hij]
              | wakeRead j =>
                  have hij : i ≠ j := fun hh => hs (by rw [hh])
                  obtain ⟨w, hw, hlt, he⟩ := step_wakeRead_inv hstep
                  subst he
                  simp [Function.update_noteq hij]
            rw [hlr] at ihs
            simp only [readsFrom, hstep, if_neg hs, List.nil_append]
            exact ihs

/-- C8: along every interleaving of publishes, wait entries and wakeups,
the sequence numbers a session reads are pairwise strictly increasing —
a session never observes a frame whose sequence number is less than or
equal to one it already read (frames may be skipped, never duplicated
or reordered). -/
theorem session_reads_strictly_monotone (steps : List SStep) (i : ℕ) :
    List.Pairwise (· < ·) (readsFrom initialBus i steps) := by
  have h := readsFrom_chain i steps initialBus busInv_initial
  simp only [initialBus, Option.toList_none, List.nil_append] at h
  exact List.chain'_iff_pairwise.mp h
